import Mathlib

/-!
Shallow embedding of `src/ssh2.rs` from the `minimalist` repository.

The module is a thin wrapper over an external SSH/SCP implementation.  We
model that external implementation as an environment record (`SshEnv`) whose
fields give the outcome of each primitive call (TCP connect, session
construction, handshake, public-key authentication, SCP send/receive channel
operations, command-execution channel operations).  Each of the four public
functions of the module is embedded as a Lean function over the environment;
it returns its result together with the trace of primitive calls it made, so
that properties such as "authentication is attempted at most once" or "the
read path never closes its channel" are statable.

Machine details kept faithful to the source:
  * the Rust `Error` enum (seven variants, `thiserror` display strings);
  * `anyhow::Error` distinguishing errors wrapped into one of the seven
    variants by `map_err` from raw underlying errors propagated bare by the
    question-mark operator;
  * the process-aborting `assert!(sess.authenticated())`;
  * byte-level UTF-8: a Rust `&str` payload is sent as its UTF-8 bytes
    (`content.as_bytes()`, of length `content.len()`), and
    `read_to_string` decodes the received byte stream as UTF-8, failing on
    invalid data.
-/

namespace Minimalist

/-- Mirror of the Rust `Error` enum in `src/ssh2.rs`: one variant per failure
site, carrying the same diagnostic fields (IP address and path rendered as
strings, ports as naturals). -/
inductive Error where
  | TcpStreamConnect (ip : String) (port : Nat) (msg : String)
  | SessionNew (msg : String)
  | SessionHandshake (msg : String)
  | SessionUserAuth (username : String) (privatekey : String) (msg : String)
  | CreateRemoteFile (path : String) (msg : String)
  | WriteRemoteFile (path : String) (msg : String)
  | ExecCommands (command : String) (msg : String)
deriving DecidableEq

/-- Display string of each `Error` variant, mirroring the `thiserror`
`#[error("...")]` format strings of the source. -/
def Error.message : Error → String
  | .TcpStreamConnect ip port msg => s!"Tcp stream connection to {ip}:{port} error: {msg}"
  | .SessionNew msg => s!"Session initializing error: {msg}"
  | .SessionHandshake msg => s!"Session handshake error: {msg}"
  | .SessionUserAuth username privatekey msg =>
      s!"Session auth user {username} with private key file {privatekey} error: {msg}"
  | .CreateRemoteFile path msg => s!"Create remote file {path} error: {msg}"
  | .WriteRemoteFile path msg => s!"Write remote file {path} error: {msg}"
  | .ExecCommands command msg => s!"Execute commands {command} error: {msg}"

/-- Model of `anyhow::Error` as it occurs in this module: either one of the
own `Error` kinds of the module (attached by a `map_err` at the failure site), or
a raw underlying library error propagated bare by the question-mark operator
without any site-specific wrapping. -/
inductive AnyError where
  | wrapped (e : Error)
  | raw (msg : String)
deriving DecidableEq

/-- Outcome of running one of the Rust functions: a value, an
`anyhow::Error`, or a process abort caused by a failing `assert!`. -/
inductive ROutcome (α : Type) where
  | ok (a : α)
  | err (e : AnyError)
  | panicked
deriving DecidableEq

/-- Model of `ssh2::Session` restricted to what the module observes: the
result of `sess.authenticated()`. -/
structure Session where
  authenticated : Bool
deriving DecidableEq

/-- Primitive calls the module makes into the underlying SSH library; the
embedding logs them so that call-pattern properties (no retry, single exec,
no close on the read path) are statable. -/
inductive Event where
  | tcpConnect (addr : String)
  | sessionNew
  | setTcpStream
  | handshake
  | userauthPubkeyFile (username : String) (privatekey : String)
  | scpSend (path : String) (mode : Nat) (size : Nat)
  | scpRecv (path : String)
  | channelSession
  | exec (command : String)
  | writeAll (bytes : List Nat)
  | sendEof
  | waitEof
  | close
  | waitClose
  | readToString
deriving DecidableEq

/-- Whether an event is an authentication attempt (of any method; the module
only ever uses the public-key-file method, which the trace shows). -/
def Event.isAuth : Event → Bool
  | .userauthPubkeyFile _ _ => true
  | _ => false

/-- Whether an event is a command execution on a channel. -/
def Event.isExec : Event → Bool
  | .exec _ => true
  | _ => false

/-- Whether an event is the opening of a command channel. -/
def Event.isChannelOpen : Event → Bool
  | .channelSession => true
  | _ => false

/-- Whether an event is one of the end-of-data or close steps of a channel
lifecycle (`send_eof`, `wait_eof`, `close`, `wait_close`). -/
def Event.isLifecycleStep : Event → Bool
  | .sendEof => true
  | .waitEof => true
  | .close => true
  | .waitClose => true
  | _ => false

/-- Whether an outcome is an error wrapped into one of the seven module
`Error` kinds (as opposed to success, a raw unwrapped error, or a panic). -/
def ROutcome.isWrappedErr {α : Type} : ROutcome α → Bool
  | .err (.wrapped _) => true
  | _ => false

/-- The external SSH/SCP implementation, modelled as the outcome of each
primitive the module calls.  Byte streams are lists of naturals below 256.
`recvRead` is the byte stream yielded by the SCP "get" channel; `execRead`
is the byte stream yielded by the command channel — per the collaborator
interface of the spec, the readable output of the command channel (the
combined stdout/stderr text the shell produced). -/
structure SshEnv where
  tcpConnect : String → Except String Unit
  sessionNew : Except String Unit
  handshake : Except String Unit
  userauthPubkeyFile : String → String → Except String Unit
  authenticatedAfterAuth : Bool
  scpSend : String → Nat → Nat → Except String Unit
  writeAll : List Nat → Except String Unit
  sendEof : Except String Unit
  waitEof : Except String Unit
  close : Except String Unit
  waitClose : Except String Unit
  scpRecv : String → Except String Unit
  recvRead : Except String (List Nat)
  channelSession : Except String Unit
  exec : String → Except String Unit
  execRead : Except String (List Nat)

/-- UTF-8 encoding of one Unicode scalar value as a list of bytes: this is
how a Rust `&str` stores its characters, hence what `content.as_bytes()`
yields for each character of `content`. -/
def encodeChar (c : Char) : List Nat :=
  let n := c.toNat
  if n < 0x80 then [n]
  else if n < 0x800 then [0xC0 + n / 64, 0x80 + n % 64]
  else if n < 0x10000 then [0xE0 + n / 4096, 0x80 + n / 64 % 64, 0x80 + n % 64]
  else [0xF0 + n / 262144, 0x80 + n / 4096 % 64, 0x80 + n / 64 % 64, 0x80 + n % 64]

/-- The UTF-8 bytes of a string: Rust `content.as_bytes()`; its length is
Rust `content.len()`. -/
def encodeStr (s : String) : List Nat :=
  s.data.flatMap encodeChar

/-- UTF-8 decoding of a byte stream into characters, as the Rust
`read_to_string` validates its input: rejects truncated sequences,
continuation-byte errors, overlong encodings, surrogates and code points
above `0x10FFFF`; `none` models the Rust `InvalidData` error. -/
def decodeBytes : List Nat → Option (List Char)
  | [] => some []
  | b :: rest =>
    if b < 0x80 then
      (decodeBytes rest).map (fun cs => Char.ofNat b :: cs)
    else if b < 0xE0 then
      if 1 ≤ rest.length ∧ 0xC2 ≤ b ∧ 0x80 ≤ rest.headD 0 ∧ rest.headD 0 < 0xC0 then
        (decodeBytes rest.tail).map
          (fun cs => Char.ofNat ((b - 0xC0) * 64 + (rest.headD 0 - 0x80)) :: cs)
      else none
    else if b < 0xF0 then
      if 2 ≤ rest.length ∧ (0x80 ≤ rest.headD 0 ∧ rest.headD 0 < 0xC0) ∧
          (0x80 ≤ rest.tail.headD 0 ∧ rest.tail.headD 0 < 0xC0) ∧
          0x800 ≤ (b - 0xE0) * 4096 + (rest.headD 0 - 0x80) * 64 + (rest.tail.headD 0 - 0x80) ∧
          ¬ (0xD800 ≤ (b - 0xE0) * 4096 + (rest.headD 0 - 0x80) * 64 + (rest.tail.headD 0 - 0x80) ∧
             (b - 0xE0) * 4096 + (rest.headD 0 - 0x80) * 64 + (rest.tail.headD 0 - 0x80) < 0xE000) then
        (decodeBytes rest.tail.tail).map
          (fun cs =>
            Char.ofNat ((b - 0xE0) * 4096 + (rest.headD 0 - 0x80) * 64 +
              (rest.tail.headD 0 - 0x80)) :: cs)
      else none
    else
      if 3 ≤ rest.length ∧ b < 0x100 ∧ (0x80 ≤ rest.headD 0 ∧ rest.headD 0 < 0xC0) ∧
          (0x80 ≤ rest.tail.headD 0 ∧ rest.tail.headD 0 < 0xC0) ∧
          (0x80 ≤ rest.tail.tail.headD 0 ∧ rest.tail.tail.headD 0 < 0xC0) ∧
          0x10000 ≤ (b - 0xF0) * 262144 + (rest.headD 0 - 0x80) * 4096 +
            (rest.tail.headD 0 - 0x80) * 64 + (rest.tail.tail.headD 0 - 0x80) ∧
          (b - 0xF0) * 262144 + (rest.headD 0 - 0x80) * 4096 +
            (rest.tail.headD 0 - 0x80) * 64 + (rest.tail.tail.headD 0 - 0x80) < 0x110000 then
        (decodeBytes rest.tail.tail.tail).map
          (fun cs =>
            Char.ofNat ((b - 0xF0) * 262144 + (rest.headD 0 - 0x80) * 4096 +
              (rest.tail.headD 0 - 0x80) * 64 + (rest.tail.tail.headD 0 - 0x80)) :: cs)
      else none
termination_by l => l.length
decreasing_by
  all_goals simp only [List.length_tail, List.length_cons]
  all_goals omega

/-- the Rust `Read::read_to_string` on a channel: drain the byte stream to
end-of-stream (or fail with the I/O error of the stream), then decode the whole
buffer as UTF-8, failing with `InvalidData` on invalid bytes — never
returning a truncated or altered string. -/
def read_to_string (stream : Except String (List Nat)) : Except String String :=
  match stream with
  | .error e => .error e
  | .ok bytes =>
    match decodeBytes bytes with
    | some cs => .ok (String.mk cs)
    | none => .error "stream did not contain valid UTF-8"

/-- Embedding of `create_session` (src/ssh2.rs lines 72-84): TCP connect,
session construction, handshake, public-key-file authentication, then
`assert!(sess.authenticated())`; each stage failure is wrapped into its own
`Error` variant by `map_err`.  Returns the outcome and the trace of
primitive calls. -/
def create_session (env : SshEnv) (ip : String) (port : Nat) (username : String)
    (privatekey : String) : ROutcome Session × List Event :=
  let addr := s!"{ip}:{port}"
  match env.tcpConnect addr with
  | .error e => (.err (.wrapped (.TcpStreamConnect ip port e)), [.tcpConnect addr])
  | .ok _ =>
    match env.sessionNew with
    | .error e => (.err (.wrapped (.SessionNew e)), [.tcpConnect addr, .sessionNew])
    | .ok _ =>
      match env.handshake with
      | .error e => (.err (.wrapped (.SessionHandshake e)),
          [.tcpConnect addr, .sessionNew, .setTcpStream, .handshake])
      | .ok _ =>
        match env.userauthPubkeyFile username privatekey with
        | .error e => (.err (.wrapped (.SessionUserAuth username privatekey e)),
            [.tcpConnect addr, .sessionNew, .setTcpStream, .handshake,
             .userauthPubkeyFile username privatekey])
        | .ok _ =>
          if env.authenticatedAfterAuth then
            (.ok ⟨env.authenticatedAfterAuth⟩,
             [.tcpConnect addr, .sessionNew, .setTcpStream, .handshake,
              .userauthPubkeyFile username privatekey])
          else
            (.panicked,
             [.tcpConnect addr, .sessionNew, .setTcpStream, .handshake,
              .userauthPubkeyFile username privatekey])

/-- Embedding of `write_file` (src/ssh2.rs lines 133-143): open the SCP
"put" channel with mode `0o644` and size `content.len()`, write all the
UTF-8 bytes of `content`, then `send_eof`, `wait_eof`, `close`,
`wait_close`.  The first two stages wrap their failures
(`CreateRemoteFile`, `WriteRemoteFile`); the four lifecycle steps propagate
failures raw via the question-mark operator. -/
def write_file (env : SshEnv) (content : String) (remote_file : String) :
    ROutcome Unit × List Event :=
  let size := (encodeStr content).length
  match env.scpSend remote_file 0o644 size with
  | .error e => (.err (.wrapped (.CreateRemoteFile remote_file e)),
      [.scpSend remote_file 0o644 size])
  | .ok _ =>
    match env.writeAll (encodeStr content) with
    | .error e => (.err (.wrapped (.WriteRemoteFile remote_file e)),
        [.scpSend remote_file 0o644 size, .writeAll (encodeStr content)])
    | .ok _ =>
      match env.sendEof with
      | .error e => (.err (.raw e),
          [.scpSend remote_file 0o644 size, .writeAll (encodeStr content), .sendEof])
      | .ok _ =>
        match env.waitEof with
        | .error e => (.err (.raw e),
            [.scpSend remote_file 0o644 size, .writeAll (encodeStr content), .sendEof, .waitEof])
        | .ok _ =>
          match env.close with
          | .error e => (.err (.raw e),
              [.scpSend remote_file 0o644 size, .writeAll (encodeStr content), .sendEof,
               .waitEof, .close])
          | .ok _ =>
            match env.waitClose with
            | .error e => (.err (.raw e),
                [.scpSend remote_file 0o644 size, .writeAll (encodeStr content), .sendEof,
                 .waitEof, .close, .waitClose])
            | .ok _ => (.ok (),
                [.scpSend remote_file 0o644 size, .writeAll (encodeStr content), .sendEof,
                 .waitEof, .close, .waitClose])

/-- Embedding of `read_file` (src/ssh2.rs lines 203-209): open the SCP
"get" channel (failure wrapped as `CreateRemoteFile` with the path), then
`read_to_string` the channel to end-of-stream (failure propagated raw) and
return the decoded string.  No end-of-data, close or wait-close call is
made. -/
def read_file (env : SshEnv) (remote_file : String) : ROutcome String × List Event :=
  match env.scpRecv remote_file with
  | .error e => (.err (.wrapped (.CreateRemoteFile remote_file e)), [.scpRecv remote_file])
  | .ok _ =>
    match read_to_string env.recvRead with
    | .error e => (.err (.raw e), [.scpRecv remote_file, .readToString])
    | .ok data => (.ok data, [.scpRecv remote_file, .readToString])

/-- Embedding of `run_commands` (src/ssh2.rs lines 266-275): open one
command channel (failure propagated raw), join the command strings with
";", execute the joined string once (failure wrapped as `ExecCommands`),
read the channel output to end-of-stream into one buffer (failure
propagated raw), then wait for channel close (failure propagated raw). -/
def run_commands (env : SshEnv) (commands : List String) : ROutcome String × List Event :=
  match env.channelSession with
  | .error e => (.err (.raw e), [.channelSession])
  | .ok _ =>
    let joined_comand := String.intercalate ";" commands
    match env.exec joined_comand with
    | .error e => (.err (.wrapped (.ExecCommands joined_comand e)),
        [.channelSession, .exec joined_comand])
    | .ok _ =>
      match read_to_string env.execRead with
      | .error e => (.err (.raw e), [.channelSession, .exec joined_comand, .readToString])
      | .ok s =>
        match env.waitClose with
        | .error e => (.err (.raw e),
            [.channelSession, .exec joined_comand, .readToString, .waitClose])
        | .ok _ => (.ok s, [.channelSession, .exec joined_comand, .readToString, .waitClose])

/-- A test double for the underlying SSH library in which every primitive
succeeds; the SCP "get" channel and the command channel yield empty byte
streams. -/
def allOkEnv : SshEnv where
  tcpConnect := fun _ => .ok ()
  sessionNew := .ok ()
  handshake := .ok ()
  userauthPubkeyFile := fun _ _ => .ok ()
  authenticatedAfterAuth := true
  scpSend := fun _ _ _ => .ok ()
  writeAll := fun _ => .ok ()
  sendEof := .ok ()
  waitEof := .ok ()
  close := .ok ()
  waitClose := .ok ()
  scpRecv := fun _ => .ok ()
  recvRead := .ok []
  channelSession := .ok ()
  exec := fun _ => .ok ()
  execRead := .ok []

/-- Environment whose TCP connect fails. -/
def tcpFailEnv : SshEnv := { allOkEnv with tcpConnect := fun _ => .error "conn refused" }

/-- Environment whose public-key authentication call fails. -/
def authFailEnv : SshEnv := { allOkEnv with userauthPubkeyFile := fun _ _ => .error "bad key" }

/-- Environment in which authentication reports success but the session does
not report itself authenticated. -/
def unauthEnv : SshEnv := { allOkEnv with authenticatedAfterAuth := false }

/-- Environment whose SCP "put" channel cannot be opened. -/
def scpSendFailEnv : SshEnv := { allOkEnv with scpSend := fun _ _ _ => .error "no such dir" }

/-- Environment whose `send_eof` call fails. -/
def eofFailEnv : SshEnv := { allOkEnv with sendEof := .error "eof failure" }

/-- Environment whose SCP "get" channel cannot be opened. -/
def recvFailEnv : SshEnv := { allOkEnv with scpRecv := fun _ => .error "no such file" }

/-- Environment whose SCP "get" channel yields a byte that is not valid
UTF-8. -/
def badUtf8Env : SshEnv := { allOkEnv with recvRead := .ok [0xFF] }

/-- Environment whose command channel cannot be opened. -/
def chanFailEnv : SshEnv := { allOkEnv with channelSession := .error "chan failure" }

/-- Environment whose SCP "get" channel replays the UTF-8 bytes of "hi", as
a faithful server would after `write_file` stored them. -/
def replayEnv : SshEnv := { allOkEnv with recvRead := .ok (encodeStr "hi") }

/-- Decoding inverts encoding one character at a time: the decoder consumes
exactly the bytes `encodeChar c` and yields `c` before the rest. -/
theorem decodeBytes_encodeChar (c : Char) (rest : List Nat) :
    decodeBytes (encodeChar c ++ rest) = (decodeBytes rest).map (fun cs => c :: cs) := by
  have hv : c.toNat < 0xd800 ∨ (0xdfff < c.toNat ∧ c.toNat < 0x110000) := c.valid
  by_cases h1 : c.toNat < 0x80
  · have e1 : encodeChar c = [c.toNat] := by
      simp only [encodeChar]
      rw [if_pos h1]
    rw [e1]
    show decodeBytes (c.toNat :: rest) = _
    rw [decodeBytes]
    rw [if_pos h1, Char.ofNat_toNat]
  · by_cases h2 : c.toNat < 0x800
    · have e1 : encodeChar c = [0xC0 + c.toNat / 64, 0x80 + c.toNat % 64] := by
        simp only [encodeChar]
        rw [if_neg h1, if_pos h2]
      rw [e1]
      show decodeBytes ((0xC0 + c.toNat / 64) :: (0x80 + c.toNat % 64) :: rest) = _
      rw [decodeBytes]
      simp only [List.headD_cons, List.tail_cons, List.length_cons]
      rw [if_neg (by omega), if_pos (by omega), if_pos (by omega)]
      have harg : (0xC0 + c.toNat / 64 - 0xC0) * 64 + (0x80 + c.toNat % 64 - 0x80) = c.toNat := by
        omega
      rw [harg, Char.ofNat_toNat]
    · by_cases h3 : c.toNat < 0x10000
      · have e1 : encodeChar c =
            [0xE0 + c.toNat / 4096, 0x80 + c.toNat / 64 % 64, 0x80 + c.toNat % 64] := by
          simp only [encodeChar]
          rw [if_neg h1, if_neg h2, if_pos h3]
        rw [e1]
        show decodeBytes ((0xE0 + c.toNat / 4096) :: (0x80 + c.toNat / 64 % 64) ::
          (0x80 + c.toNat % 64) :: rest) = _
        rw [decodeBytes]
        simp only [List.headD_cons, List.tail_cons, List.length_cons]
        rw [if_neg (by omega), if_neg (by omega), if_pos (by omega), if_pos (by omega)]
        have harg : (0xE0 + c.toNat / 4096 - 0xE0) * 4096 +
            (0x80 + c.toNat / 64 % 64 - 0x80) * 64 + (0x80 + c.toNat % 64 - 0x80) = c.toNat := by
          omega
        rw [harg, Char.ofNat_toNat]
      · have e1 : encodeChar c = [0xF0 + c.toNat / 262144, 0x80 + c.toNat / 4096 % 64,
            0x80 + c.toNat / 64 % 64, 0x80 + c.toNat % 64] := by
          simp only [encodeChar]
          rw [if_neg h1, if_neg h2, if_neg h3]
        rw [e1]
        show decodeBytes ((0xF0 + c.toNat / 262144) :: (0x80 + c.toNat / 4096 % 64) ::
          (0x80 + c.toNat / 64 % 64) :: (0x80 + c.toNat % 64) :: rest) = _
        rw [decodeBytes]
        simp only [List.headD_cons, List.tail_cons, List.length_cons]
        rw [if_neg (by omega), if_neg (by omega), if_neg (by omega), if_pos (by omega)]
        have harg : (0xF0 + c.toNat / 262144 - 0xF0) * 262144 +
            (0x80 + c.toNat / 4096 % 64 - 0x80) * 4096 +
            (0x80 + c.toNat / 64 % 64 - 0x80) * 64 + (0x80 + c.toNat % 64 - 0x80) = c.toNat := by
          omega
        rw [harg, Char.ofNat_toNat]

/-- Decoding inverts encoding for any character list. -/
theorem decodeBytes_flatMap_encodeChar (cs : List Char) :
    decodeBytes (cs.flatMap encodeChar) = some cs := by
  induction cs with
  | nil =>
    rw [List.flatMap_nil, decodeBytes]
  | cons c cs ih =>
    rw [List.flatMap_cons, decodeBytes_encodeChar, ih]
    rfl

/-- Decoding the UTF-8 bytes of a string yields exactly its characters. -/
theorem decodeBytes_encodeStr (s : String) : decodeBytes (encodeStr s) = some s.data :=
  decodeBytes_flatMap_encodeChar s.data

/-- C2: for every content string and remote path, `write_file` opens the
SCP "put" channel (always its first primitive call) with the fixed file
mode `0o644` and a declared size equal to the byte length of the content
string; neither value is a parameter of `write_file`, so neither is
configurable by the caller. -/
theorem write_file_mode_and_size (env : SshEnv) (content remote_file : String) :
    (write_file env content remote_file).2.head? =
      some (.scpSend remote_file 0o644 (encodeStr content).length) := by
  cases h1 : env.scpSend remote_file 0o644 (encodeStr content).length <;>
  cases h2 : env.writeAll (encodeStr content) <;>
  cases h3 : env.sendEof <;>
  cases h4 : env.waitEof <;>
  cases h5 : env.close <;>
  cases h6 : env.waitClose <;>
  simp_all [write_file]

/-- C3: `write_file` succeeds exactly when channel open, the full write,
end-of-data signalling, the peer end-of-data acknowledgment, channel
close, and the wait for closure all succeed; a channel-open failure is
returned as `CreateRemoteFile` and a write failure as `WriteRemoteFile`,
both carrying the remote path. -/
theorem write_file_success_iff (env : SshEnv) (content remote_file : String) :
    ((write_file env content remote_file).1 = .ok () ↔
      (env.scpSend remote_file 0o644 (encodeStr content).length = .ok () ∧
       env.writeAll (encodeStr content) = .ok () ∧
       env.sendEof = .ok () ∧ env.waitEof = .ok () ∧
       env.close = .ok () ∧ env.waitClose = .ok ())) ∧
    (∀ e, env.scpSend remote_file 0o644 (encodeStr content).length = .error e →
      (write_file env content remote_file).1 =
        .err (.wrapped (.CreateRemoteFile remote_file e))) ∧
    (∀ e, env.scpSend remote_file 0o644 (encodeStr content).length = .ok () →
      env.writeAll (encodeStr content) = .error e →
      (write_file env content remote_file).1 =
        .err (.wrapped (.WriteRemoteFile remote_file e))) := by
  cases h1 : env.scpSend remote_file 0o644 (encodeStr content).length <;>
  cases h2 : env.writeAll (encodeStr content) <;>
  cases h3 : env.sendEof <;>
  cases h4 : env.waitEof <;>
  cases h5 : env.close <;>
  cases h6 : env.waitClose <;>
  simp_all [write_file]

/-- Witness for `write_file_success_iff`: with an all-success library the
call returns success, and with a failing channel open it returns the
`CreateRemoteFile` error carrying the path. -/
theorem write_file_success_iff_witness :
    (write_file allOkEnv "hi" "f").1 = .ok () ∧
    (write_file scpSendFailEnv "hi" "f").1 =
      .err (.wrapped (.CreateRemoteFile "f" "no such dir")) :=
  ⟨(write_file_success_iff allOkEnv "hi" "f").1.mpr ⟨rfl, rfl, rfl, rfl, rfl, rfl⟩,
   (write_file_success_iff scpSendFailEnv "hi" "f").2.1 "no such dir" rfl⟩

/-- C6: `read_file` wraps a channel-open failure as `CreateRemoteFile`
carrying the remote path; a UTF-8 decoding failure of the received stream is
returned as an error; and any returned string is exactly the decode of the
complete received byte stream, never a truncated or altered one. -/
theorem read_file_contract (env : SshEnv) (remote_file : String) :
    (∀ e, env.scpRecv remote_file = .error e →
      (read_file env remote_file).1 = .err (.wrapped (.CreateRemoteFile remote_file e))) ∧
    (∀ bytes, env.scpRecv remote_file = .ok () → env.recvRead = .ok bytes →
      decodeBytes bytes = none →
      (read_file env remote_file).1 = .err (.raw "stream did not contain valid UTF-8")) ∧
    (∀ s, (read_file env remote_file).1 = .ok s →
      ∃ bytes, env.recvRead = .ok bytes ∧ decodeBytes bytes = some s.data) := by
  refine ⟨?_, ?_, ?_⟩
  · intro e h1
    simp [read_file, h1]
  · intro bytes h1 h2 h3
    simp [read_file, read_to_string, h1, h2, h3]
  · intro s hs
    cases h1 : env.scpRecv remote_file with
    | error e => simp [read_file, h1] at hs
    | ok u =>
      cases h2 : env.recvRead with
      | error e => simp [read_file, read_to_string, h1, h2] at hs
      | ok bytes =>
        cases h3 : decodeBytes bytes with
        | none => simp [read_file, read_to_string, h1, h2, h3] at hs
        | some cs =>
          refine ⟨bytes, rfl, ?_⟩
          simp [read_file, read_to_string, h1, h2, h3] at hs
          rw [h3, ← hs]

/-- Witness for `read_file_contract`: a failing channel open yields the
path-carrying error, and a stream consisting of the single byte 0xFF yields
the UTF-8 error. -/
theorem read_file_contract_witness :
    (read_file recvFailEnv "f").1 = .err (.wrapped (.CreateRemoteFile "f" "no such file")) ∧
    (read_file badUtf8Env "f").1 = .err (.raw "stream did not contain valid UTF-8") :=
  ⟨(read_file_contract recvFailEnv "f").1 "no such file" rfl,
   (read_file_contract badUtf8Env "f").2.1 [0xFF] rfl rfl (by simp [decodeBytes])⟩

/-- C10: `read_file` makes exactly two primitive calls — opening the "get"
channel and reading it to end-of-stream; its trace holds no end-of-data,
close or wait-close step (and no exec), and on success it is exactly the
two-element open-then-read trace. -/
theorem read_file_no_lifecycle (env : SshEnv) (remote_file : String) :
    (read_file env remote_file).2.filter Event.isLifecycleStep = [] ∧
    (read_file env remote_file).2.countP Event.isExec = 0 ∧
    (∀ s, (read_file env remote_file).1 = .ok s →
      (read_file env remote_file).2 = [.scpRecv remote_file, .readToString]) := by
  cases h1 : env.scpRecv remote_file with
  | error e =>
    simp [read_file, h1, Event.isLifecycleStep, Event.isExec]
  | ok u =>
    cases h2 : read_to_string env.recvRead <;>
    simp [read_file, h1, h2, Event.isLifecycleStep, Event.isExec, List.filter, List.countP,
      List.countP.go]

/-- Witness for `read_file_no_lifecycle`: on the all-success library the
trace of a successful read is exactly channel open followed by the read. -/
theorem read_file_no_lifecycle_witness :
    (read_file allOkEnv "f").2 = [Event.scpRecv "f", Event.readToString] :=
  (read_file_no_lifecycle allOkEnv "f").2.2 "" (by simp [read_file, read_to_string,
    allOkEnv, decodeBytes])

/-- C1: each failing stage of `create_session` yields its own distinct
error kind — TCP connect failure carrying address, port and the underlying
error text; session construction failure; handshake failure; authentication
failure carrying username, private-key path and the underlying error text —
an authentication failure never yields a `Session`, and the call trace
attempts authentication at most once, always by the public-key-file method
with the given credentials (no retry, no fallback). -/
theorem create_session_stage_errors (env : SshEnv) (ip : String) (port : Nat)
    (username privatekey : String) :
    (∀ e, env.tcpConnect s!"{ip}:{port}" = .error e →
      (create_session env ip port username privatekey).1 =
        .err (.wrapped (.TcpStreamConnect ip port e))) ∧
    (∀ e, env.tcpConnect s!"{ip}:{port}" = .ok () → env.sessionNew = .error e →
      (create_session env ip port username privatekey).1 =
        .err (.wrapped (.SessionNew e))) ∧
    (∀ e, env.tcpConnect s!"{ip}:{port}" = .ok () → env.sessionNew = .ok () →
      env.handshake = .error e →
      (create_session env ip port username privatekey).1 =
        .err (.wrapped (.SessionHandshake e))) ∧
    (∀ e, env.tcpConnect s!"{ip}:{port}" = .ok () → env.sessionNew = .ok () →
      env.handshake = .ok () → env.userauthPubkeyFile username privatekey = .error e →
      (create_session env ip port username privatekey).1 =
        .err (.wrapped (.SessionUserAuth username privatekey e)) ∧
      ∀ s, (create_session env ip port username privatekey).1 ≠ .ok s) ∧
    ((create_session env ip port username privatekey).2.countP Event.isAuth ≤ 1 ∧
      ∀ ev, ev ∈ (create_session env ip port username privatekey).2 → ev.isAuth = true →
        ev = .userauthPubkeyFile username privatekey) := by
  refine ⟨?_, ?_, ?_, ?_, ?_⟩
  · intro e h1
    simp [create_session, h1]
  · intro e h1 h2
    simp [create_session, h1, h2]
  · intro e h1 h2 h3
    simp [create_session, h1, h2, h3]
  · intro e h1 h2 h3 h4
    refine ⟨by simp [create_session, h1, h2, h3, h4], ?_⟩
    intro s
    simp [create_session, h1, h2, h3, h4]
  · cases h1 : env.tcpConnect s!"{ip}:{port}" <;>
    cases h2 : env.sessionNew <;>
    cases h3 : env.handshake <;>
    cases h4 : env.userauthPubkeyFile username privatekey <;>
    cases h5 : env.authenticatedAfterAuth <;>
    simp_all [create_session, Event.isAuth, List.countP_cons]

/-- Witness for `create_session_stage_errors`: a refused TCP connection
yields the connect error with address, port and message, and a failing
public-key authentication yields the auth error and no session. -/
theorem create_session_stage_errors_witness :
    (create_session tcpFailEnv "1.2.3.4" 22 "u" "/k").1 =
      .err (.wrapped (.TcpStreamConnect "1.2.3.4" 22 "conn refused")) ∧
    (create_session authFailEnv "1.2.3.4" 22 "u" "/k").1 =
      .err (.wrapped (.SessionUserAuth "u" "/k" "bad key")) :=
  ⟨(create_session_stage_errors tcpFailEnv "1.2.3.4" 22 "u" "/k").1 "conn refused" rfl,
   ((create_session_stage_errors authFailEnv "1.2.3.4" 22 "u" "/k").2.2.2.1
      "bad key" rfl rfl rfl rfl).1⟩

/-- C9: every `Session` returned by `create_session` reports itself
authenticated; when the authentication call succeeds but the session does
not report itself authenticated, the `assert!` aborts the process (the
embedding returns the `panicked` outcome), so no error and no
unauthenticated session is returned. -/
theorem create_session_authenticated (env : SshEnv) (ip : String) (port : Nat)
    (username privatekey : String) :
    (∀ s, (create_session env ip port username privatekey).1 = .ok s →
      s.authenticated = true) ∧
    (env.tcpConnect s!"{ip}:{port}" = .ok () → env.sessionNew = .ok () →
      env.handshake = .ok () → env.userauthPubkeyFile username privatekey = .ok () →
      env.authenticatedAfterAuth = false →
      (create_session env ip port username privatekey).1 = .panicked) := by
  constructor
  · intro s hs
    cases h1 : env.tcpConnect s!"{ip}:{port}" <;>
    cases h2 : env.sessionNew <;>
    cases h3 : env.handshake <;>
    cases h4 : env.userauthPubkeyFile username privatekey <;>
    cases h5 : env.authenticatedAfterAuth <;>
    simp_all [create_session]
    exact hs.symm ▸ rfl
  · intro h1 h2 h3 h4 h5
    simp [create_session, h1, h2, h3, h4, h5]

/-- Witness for `create_session_authenticated`: the session produced by the
all-success library reports itself authenticated, and the
success-but-unauthenticated library makes the call abort. -/
theorem create_session_authenticated_witness :
    Session.authenticated ⟨true⟩ = true ∧
    (create_session unauthEnv "1.2.3.4" 22 "u" "/k").1 = .panicked :=
  ⟨(create_session_authenticated allOkEnv "1.2.3.4" 22 "u" "/k").1 ⟨true⟩ rfl,
   (create_session_authenticated unauthEnv "1.2.3.4" 22 "u" "/k").2 rfl rfl rfl rfl rfl⟩

/-- C4: `run_commands` opens exactly one command channel, executes exactly
one command string — the ";"-join of the batch — on it, and on success the
returned string is the full decode of the combined output stream of the channel
and the trace is exactly open, exec, read-to-end, wait-close; for the batch
["echo a", "echo b"] the joined command string is "echo a;echo b". -/
theorem run_commands_single_exec (env : SshEnv) (commands : List String) :
    ((run_commands env commands).2.countP Event.isChannelOpen = 1) ∧
    (env.channelSession = .ok () →
      (run_commands env commands).2.filter Event.isExec =
        [.exec (String.intercalate ";" commands)]) ∧
    (∀ e, env.channelSession = .error e →
      (run_commands env commands).2.filter Event.isExec = []) ∧
    (∀ s, (run_commands env commands).1 = .ok s →
      read_to_string env.execRead = .ok s ∧
      (run_commands env commands).2 =
        [.channelSession, .exec (String.intercalate ";" commands), .readToString,
         .waitClose]) ∧
    (String.intercalate ";" ["echo a", "echo b"] = "echo a;echo b") := by
  refine ⟨?_, ?_, ?_, ?_, rfl⟩
  · cases h1 : env.channelSession <;>
    cases h2 : env.exec (String.intercalate ";" commands) <;>
    cases h3 : read_to_string env.execRead <;>
    cases h4 : env.waitClose <;>
    simp_all [run_commands, Event.isChannelOpen, List.countP_cons]
  · intro h1
    cases h2 : env.exec (String.intercalate ";" commands) <;>
    cases h3 : read_to_string env.execRead <;>
    cases h4 : env.waitClose <;>
    simp_all [run_commands, Event.isExec, List.filter]
  · intro e h1
    simp [run_commands, h1, Event.isExec, List.filter]
  · intro s hs
    cases h1 : env.channelSession <;>
    cases h2 : env.exec (String.intercalate ";" commands) <;>
    cases h3 : read_to_string env.execRead <;>
    cases h4 : env.waitClose <;>
    simp_all [run_commands]

/-- Witness for `run_commands_single_exec`: with the all-success library
the batch ["echo a", "echo b"] leads to exactly one exec event, carrying
the single joined shell invocation "echo a;echo b". -/
theorem run_commands_single_exec_witness :
    (run_commands allOkEnv ["echo a", "echo b"]).2.filter Event.isExec =
      [Event.exec (String.intercalate ";" ["echo a", "echo b"])] ∧
    String.intercalate ";" ["echo a", "echo b"] = "echo a;echo b" :=
  ⟨(run_commands_single_exec allOkEnv ["echo a", "echo b"]).2.1 rfl,
   (run_commands_single_exec allOkEnv ["echo a", "echo b"]).2.2.2.2⟩

/-- C5: on an empty batch the ";"-join of zero commands is the empty
string, and `run_commands` (once its channel opens) still reaches the
execution stage, executing the empty command string rather than skipping
execution or failing beforehand. -/
theorem run_commands_empty_batch (env : SshEnv) :
    String.intercalate ";" ([] : List String) = "" ∧
    (env.channelSession = .ok () →
      (run_commands env []).2.filter Event.isExec = [.exec ""]) := by
  refine ⟨rfl, ?_⟩
  intro h1
  cases h2 : env.exec "" <;>
  cases h3 : read_to_string env.execRead <;>
  cases h4 : env.waitClose <;>
  simp_all [run_commands, Event.isExec, List.filter, String.intercalate]

/-- Witness for `run_commands_empty_batch`: on the all-success library the
empty batch produces exactly one exec event, of the empty string. -/
theorem run_commands_empty_batch_witness :
    (run_commands allOkEnv []).2.filter Event.isExec = [Event.exec ""] :=
  (run_commands_empty_batch allOkEnv).2 rfl

/-- C7 counterexample: when `send_eof` fails inside `write_file`, the
returned error is the raw underlying error, not one of the seven
site-specific error kinds — refuting the claim that every stage-local
failure is wrapped with site-specific context. -/
theorem write_file_unwrapped_error_cex :
    (write_file eofFailEnv "x" "f").1 = .err (.raw "eof failure") ∧
    ROutcome.isWrappedErr (write_file eofFailEnv "x" "f").1 = false := by
  decide

/-- C7 amended: failures at the TCP-connect, session-construction,
handshake, authentication, SCP-channel-open, remote-write and exec stages
are wrapped with site-specific context (the seven error kinds with their
diagnostic fields); failures at the end-of-data and close steps of `write_file`,
the read step of `read_file`, and the channel-open, read and
wait-close steps propagate to the immediate caller as raw unwrapped errors;
in every case the failure is returned, never retried or suppressed. -/
theorem error_propagation_policy (env : SshEnv) (ip : String) (port : Nat)
    (username privatekey content path : String) (commands : List String) :
    (∀ e, env.tcpConnect s!"{ip}:{port}" = .error e →
      (create_session env ip port username privatekey).1 =
        .err (.wrapped (.TcpStreamConnect ip port e))) ∧
    (∀ e, env.tcpConnect s!"{ip}:{port}" = .ok () → env.sessionNew = .error e →
      (create_session env ip port username privatekey).1 =
        .err (.wrapped (.SessionNew e))) ∧
    (∀ e, env.tcpConnect s!"{ip}:{port}" = .ok () → env.sessionNew = .ok () →
      env.handshake = .error e →
      (create_session env ip port username privatekey).1 =
        .err (.wrapped (.SessionHandshake e))) ∧
    (∀ e, env.tcpConnect s!"{ip}:{port}" = .ok () → env.sessionNew = .ok () →
      env.handshake = .ok () → env.userauthPubkeyFile username privatekey = .error e →
      (create_session env ip port username privatekey).1 =
        .err (.wrapped (.SessionUserAuth username privatekey e))) ∧
    (∀ e, env.scpSend path 0o644 (encodeStr content).length = .error e →
      (write_file env content path).1 = .err (.wrapped (.CreateRemoteFile path e))) ∧
    (∀ e, env.scpSend path 0o644 (encodeStr content).length = .ok () →
      env.writeAll (encodeStr content) = .error e →
      (write_file env content path).1 = .err (.wrapped (.WriteRemoteFile path e))) ∧
    (∀ e, env.scpSend path 0o644 (encodeStr content).length = .ok () →
      env.writeAll (encodeStr content) = .ok () → env.sendEof = .error e →
      (write_file env content path).1 = .err (.raw e)) ∧
    (∀ e, env.scpSend path 0o644 (encodeStr content).length = .ok () →
      env.writeAll (encodeStr content) = .ok () → env.sendEof = .ok () →
      env.waitEof = .error e →
      (write_file env content path).1 = .err (.raw e)) ∧
    (∀ e, env.scpSend path 0o644 (encodeStr content).length = .ok () →
      env.writeAll (encodeStr content) = .ok () → env.sendEof = .ok () →
      env.waitEof = .ok () → env.close = .error e →
      (write_file env content path).1 = .err (.raw e)) ∧
    (∀ e, env.scpSend path 0o644 (encodeStr content).length = .ok () →
      env.writeAll (encodeStr content) = .ok () → env.sendEof = .ok () →
      env.waitEof = .ok () → env.close = .ok () → env.waitClose = .error e →
      (write_file env content path).1 = .err (.raw e)) ∧
    (∀ e, env.scpRecv path = .error e →
      (read_file env path).1 = .err (.wrapped (.CreateRemoteFile path e))) ∧
    (∀ e, env.scpRecv path = .ok () → read_to_string env.recvRead = .error e →
      (read_file env path).1 = .err (.raw e)) ∧
    (∀ e, env.channelSession = .error e →
      (run_commands env commands).1 = .err (.raw e)) ∧
    (∀ e, env.channelSession = .ok () →
      env.exec (String.intercalate ";" commands) = .error e →
      (run_commands env commands).1 =
        .err (.wrapped (.ExecCommands (String.intercalate ";" commands) e))) ∧
    (∀ e, env.channelSession = .ok () →
      env.exec (String.intercalate ";" commands) = .ok () →
      read_to_string env.execRead = .error e →
      (run_commands env commands).1 = .err (.raw e)) ∧
    (∀ e s, env.channelSession = .ok () →
      env.exec (String.intercalate ";" commands) = .ok () →
      read_to_string env.execRead = .ok s →
      env.waitClose = .error e →
      (run_commands env commands).1 = .err (.raw e)) := by
  refine ⟨?_, ?_, ?_, ?_, ?_, ?_, ?_, ?_, ?_, ?_, ?_, ?_, ?_, ?_, ?_, ?_⟩
  · intro e h1
    simp [create_session, h1]
  · intro e h1 h2
    simp [create_session, h1, h2]
  · intro e h1 h2 h3
    simp [create_session, h1, h2, h3]
  · intro e h1 h2 h3 h4
    simp [create_session, h1, h2, h3, h4]
  · intro e h1
    simp [write_file, h1]
  · intro e h1 h2
    simp [write_file, h1, h2]
  · intro e h1 h2 h3
    simp [write_file, h1, h2, h3]
  · intro e h1 h2 h3 h4
    simp [write_file, h1, h2, h3, h4]
  · intro e h1 h2 h3 h4 h5
    simp [write_file, h1, h2, h3, h4, h5]
  · intro e h1 h2 h3 h4 h5 h6
    simp [write_file, h1, h2, h3, h4, h5, h6]
  · intro e h1
    simp [read_file, h1]
  · intro e h1 h2
    simp [read_file, h1, h2]
  · intro e h1
    simp [run_commands, h1]
  · intro e h1 h2
    simp [run_commands, h1, h2]
  · intro e h1 h2 h3
    simp [run_commands, h1, h2, h3]
  · intro e s h1 h2 h3 h4
    simp [run_commands, h1, h2, h3, h4]

/-- Witness for `error_propagation_policy`: a failing `send_eof` and a
failing command-channel open surface as raw errors; a failing SCP "put"
open surfaces wrapped with the path. -/
theorem error_propagation_policy_witness :
    (write_file eofFailEnv "x" "f").1 = .err (.raw "eof failure") ∧
    (run_commands chanFailEnv ["ls"]).1 = .err (.raw "chan failure") ∧
    (write_file scpSendFailEnv "x" "f").1 =
      .err (.wrapped (.CreateRemoteFile "f" "no such dir")) :=
  ⟨(error_propagation_policy eofFailEnv "i" 1 "u" "k" "x" "f"
      ["ls"]).2.2.2.2.2.2.1 "eof failure" rfl rfl rfl,
   (error_propagation_policy chanFailEnv "i" 1 "u" "k" "x" "f"
      ["ls"]).2.2.2.2.2.2.2.2.2.2.2.2.1 "chan failure" rfl,
   (error_propagation_policy scpSendFailEnv "i" 1 "u" "k" "x" "f"
      ["ls"]).2.2.2.2.1 "no such dir" rfl⟩

/-- C8: round-trip — if `write_file` succeeds for content C at path P and
`read_file` of P then succeeds against a server that replays exactly the
bytes the write sent (the UTF-8 bytes of C), the string returned by
`read_file` is exactly C. -/
theorem write_read_roundtrip (envW envR : SshEnv) (content path s : String)
    (_hw : (write_file envW content path).1 = .ok ())
    (hr : envR.recvRead = .ok (encodeStr content))
    (h : (read_file envR path).1 = .ok s) :
    s = content := by
  cases h1 : envR.scpRecv path with
  | error e =>
    simp [read_file, h1] at h
  | ok u =>
    simp [read_file, read_to_string, h1, hr, decodeBytes_encodeStr] at h
    rw [← h]

/-- Witness for `write_read_roundtrip`: writing "hi" through the
all-success library and reading it back through a faithful replay of its
bytes returns "hi". -/
theorem write_read_roundtrip_witness : ("hi" : String) = "hi" :=
  write_read_roundtrip allOkEnv replayEnv "hi" "f" "hi" (by decide) rfl
    (by simp [read_file, read_to_string, replayEnv, allOkEnv, encodeStr, encodeChar,
      decodeBytes])

end Minimalist
